import Mathlib

/-!
Verification of the client-side notification synchronization engine
(FE-SSE repository) against its natural-language specification.

The development shallowly embeds the relevant TypeScript source:
* the payload-normalization helpers of the notification context
  (normalizeNotifications / extractNotifications),
* the stream-push handler (onNotification), markAsRead,
  and the logout/refresh transitions of the notification context,
* the 401-interception / token-refresh protocol of ApiService
  (setupInterceptors in api.service.ts),
* the cleanup routine of the useSSE hook.

JavaScript runtime values are modelled by the inductive type JSVal;
machine-level JS numbers are modelled as integers (no claim here
depends on floating point).
-/

/-- Model of a JavaScript runtime value as far as the notification
code inspects one: undefined, null, booleans, numbers (integer model),
strings, arrays and plain objects (field lists, first binding wins). -/
inductive JSVal where
  | undef : JSVal
  | null : JSVal
  | bool : Bool → JSVal
  | num : Int → JSVal
  | str : String → JSVal
  | arr : List JSVal → JSVal
  | obj : List (String × JSVal) → JSVal

/-- Field lookup in an object field list; absent fields read as undefined. -/
def lookupField : List (String × JSVal) → String → JSVal
  | [], _ => JSVal.undef
  | (k, v) :: rest, key => if k = key then v else lookupField rest key

/-- JS property access item?.k : on a non-object it yields undefined
(the optional chaining in the source always lands in the defaulted branch). -/
def getField : JSVal → String → JSVal
  | JSVal.obj fs, key => lookupField fs key
  | _, _ => JSVal.undef

/-- JS truthiness, as used by the source's if (!response) guards and
Boolean(...) coercions. -/
def truthy : JSVal → Bool
  | JSVal.undef => false
  | JSVal.null => false
  | JSVal.bool b => b
  | JSVal.num n => decide (n ≠ 0)
  | JSVal.str s => decide (s ≠ "")
  | JSVal.arr _ => true
  | JSVal.obj _ => true

/-- JS nullish test: the left operand of the ?? operator is skipped
exactly when it is null or undefined. -/
def isNullish : JSVal → Bool
  | JSVal.undef => true
  | JSVal.null => true
  | _ => false

/-- The JS nullish-coalescing operator a ?? b. -/
def nc (a b : JSVal) : JSVal :=
  if isNullish a then b else a

/-- Array.isArray view: the element list when the value is an array. -/
def asArray : JSVal → Option (List JSVal)
  | JSVal.arr xs => some xs
  | _ => none

/-- JS String(...) conversion (also used by template-literal
interpolation). Array elements that are null or undefined convert to
the empty string inside a joined array, following Array.prototype.join. -/
def jsString : JSVal → String
  | JSVal.undef => "undefined"
  | JSVal.null => "null"
  | JSVal.bool true => "true"
  | JSVal.bool false => "false"
  | JSVal.num n => toString n
  | JSVal.str s => s
  | JSVal.arr xs =>
      String.intercalate ","
        (xs.attach.map (fun x => if isNullish x.1 then "" else jsString x.1))
  | JSVal.obj _ => "[object Object]"
decreasing_by
  have h := List.sizeOf_lt_of_mem x.2
  simp only [JSVal.arr.sizeOf_spec]
  omega

/-- Canonical record produced by normalizeNotifications: the spread
...item (kept whole in the raw field) overridden by the four
explicitly recomputed fields id, priority, isRead, sentViaSSE. -/
structure NormalizedRec where
  raw : JSVal
  id : String
  priority : JSVal
  isRead : Bool
  sentViaSSE : Bool

/-- One element of the map inside normalizeNotifications
(src/unnamed/part_003 lines 39-55): fallbackId is
item?.id ?? item?._id ?? item?.notificationId ??
a template string from userId and createdAt; the environment value
env stands for crypto.randomUUID() ?? Date.now() (a nondeterministic
input of the runtime). -/
def normalizeItem (env : String) (item : JSVal) : NormalizedRec :=
  let fallbackId :=
    nc (getField item "id")
      (nc (getField item "_id")
        (nc (getField item "notificationId")
          (JSVal.str
            (jsString (nc (getField item "userId") (JSVal.str "notification"))
              ++ "-"
              ++ jsString (nc (getField item "createdAt") (JSVal.str env))))))
  { raw := item
    id := jsString fallbackId
    priority := nc (getField item "priority") (JSVal.str "NORMAL")
    isRead := truthy (getField item "isRead")
    sentViaSSE := truthy (getField item "sentViaSSE") }

/-- normalizeNotifications (src/unnamed/part_003 lines 33-57): a
non-array input yields []; otherwise each element is normalized. The
trailing .filter(Boolean) of the source is the identity because every
mapped element is an object, hence truthy. -/
def normalizeNotifications (env : String) (items : JSVal) : List NormalizedRec :=
  match items with
  | JSVal.arr xs => xs.map (normalizeItem env)
  | _ => []

/-- extractNotifications (src/unnamed/part_003 lines 59-83): tolerates
a falsy response, a bare array, an object with an array-valued
notifications field, and a data wrapper holding either of the last two
shapes, in exactly the source's test order. -/
def extractNotifications (env : String) (response : JSVal) : List NormalizedRec :=
  if truthy response = false then []
  else if (asArray response).isSome then
    normalizeNotifications env response
  else if (asArray (getField response "notifications")).isSome then
    normalizeNotifications env (getField response "notifications")
  else if truthy (getField response "data") then
    if (asArray (getField (getField response "data") "notifications")).isSome then
      normalizeNotifications env (getField (getField response "data") "notifications")
    else if (asArray (getField response "data")).isSome then
      normalizeNotifications env (getField response "data")
    else []
  else []

/-- Priority enumeration of the TS Notification interface
(src/src/types/index.ts; HIGHT is the source's own spelling). -/
inductive Priority where
  | NORMAL : Priority
  | HIGHT : Priority
  | LOW : Priority
deriving DecidableEq, Repr

/-- The typed Notification record of src/src/types/index.ts. The
metadata field (Record<string, any>) is kept opaque as an optional
string key-value list. -/
structure Notification where
  id : String
  userId : String
  title : String
  message : String
  isRead : Bool
  priority : Priority
  metadata : Option (List (String × String))
  sentViaSSE : Bool
  readAt : Option String
  createdAt : String
  expiresAt : Option String
deriving DecidableEq, Repr

/-- The two state cells of the notification context that the stream
and mutation handlers update: the notifications list and the unread
counter (a JS number, modelled as Int). -/
structure NotifState where
  notifications : List Notification
  unreadCount : Int
deriving DecidableEq, Repr

/-- The stream-push handler onNotification
(src/src/context/notification.context.tsx lines 73-87 and
src/unnamed/part_003 lines 108-122): it unconditionally prepends the
incoming record and increments the unread counter by one. -/
def onNotification (n : Notification) (s : NotifState) : NotifState :=
  { s with
    notifications := n :: s.notifications
    unreadCount := s.unreadCount + 1 }

/-- The list update performed by markAsRead on success
(both context versions): map replacing isRead by true on every record
whose id matches. -/
def markAsReadList (id : String) (l : List Notification) : List Notification :=
  l.map (fun n => if n.id = id then { n with isRead := true } else n)

/-- markAsRead success path (src/src/context/notification.context.tsx
lines 94-106, src/unnamed/part_003 lines 172-184): flip the matching
record to read and set the counter to Math.max(0, prev - 1),
unconditionally. -/
def markAsRead (id : String) (s : NotifState) : NotifState :=
  { s with
    notifications := markAsReadList id s.notifications
    unreadCount := max 0 (s.unreadCount - 1) }

/-- Number of records in a list carrying a given id. -/
def idCount (l : List Notification) (i : String) : Nat :=
  (l.filter (fun n => n.id = i)).length

/-- Membership of an id in a notification list, as a boolean. -/
def hasId (l : List Notification) (i : String) : Bool :=
  l.any (fun n => n.id = i)

/-- RenewalState: the two mutable fields of ApiService that the 401
interceptor manipulates (src/src/service/api.service.ts lines 17-18). -/
structure RenewalState where
  isRefreshing : Bool
  refreshAttempts : Nat
deriving DecidableEq, Repr

/-- MAX_REFRESH_ATTEMPTS (src/src/service/api.service.ts line 19). -/
def MAX_REFRESH_ATTEMPTS : Nat := 3

/-- The synchronous prefix of the renewal branch
(api.service.ts lines 98-100): isRefreshing := true and
refreshAttempts incremented by one, before refreshToken() is awaited. -/
def beginRenewal (s : RenewalState) : RenewalState :=
  { isRefreshing := true, refreshAttempts := s.refreshAttempts + 1 }

/-- State after a successful refreshToken() (api.service.ts
lines 111-112): attempts reset to 0, flag cleared. -/
def renewalSucceeded (_ : RenewalState) : RenewalState :=
  { isRefreshing := false, refreshAttempts := 0 }

/-- State after a failed refreshToken() (api.service.ts lines 118-119,
the catch block): attempts reset to 0, flag cleared. -/
def renewalFailed (_ : RenewalState) : RenewalState :=
  { isRefreshing := false, refreshAttempts := 0 }

/-- login() resets refreshAttempts (api.service.ts line 137); logout()
does the same in its finally block (line 146). -/
def loginReset (s : RenewalState) : RenewalState :=
  { s with refreshAttempts := 0 }

/-- Outcome of one run of the response-error interceptor, indicating
what is returned to the awaiting caller and whether refreshToken()
was invoked during the run. -/
inductive InterceptResult where
  | rejectOriginal : InterceptResult
  | waitAndRetry : InterceptResult
  | renewedAndRetried : InterceptResult
  | renewalErrorRejected : InterceptResult
deriving DecidableEq, Repr

/-- Whether an interceptor outcome involved invoking the renewal
operation refreshToken(). -/
def invokesRenewal : InterceptResult → Bool
  | InterceptResult.renewedAndRetried => true
  | InterceptResult.renewalErrorRejected => true
  | _ => false

/-- The response-error interceptor of setupInterceptors
(api.service.ts lines 50-125), run to completion on one failed
response. hasResponse is error.response presence (false for a pure
network failure or timeout), status the HTTP status, hasOriginal the
presence of error.config, retryFlag the request's _retry marker,
isRefreshUrl whether the URL contains /refresh, and renewOk the
outcome of the awaited refreshToken() call (an oracle input; it is
consulted only in the branch that actually invokes renewal). -/
def respondError (s : RenewalState) (hasResponse : Bool) (status : Nat)
    (hasOriginal : Bool) (retryFlag : Bool) (isRefreshUrl : Bool)
    (renewOk : Bool) : RenewalState × InterceptResult :=
  if hasResponse = false then
    (s, InterceptResult.rejectOriginal)
  else if status ≠ 401 ∨ hasOriginal = false ∨ retryFlag then
    (s, InterceptResult.rejectOriginal)
  else if isRefreshUrl then
    ({ isRefreshing := false, refreshAttempts := 0 }, InterceptResult.rejectOriginal)
  else if MAX_REFRESH_ATTEMPTS ≤ s.refreshAttempts then
    ({ isRefreshing := false, refreshAttempts := 0 }, InterceptResult.rejectOriginal)
  else if s.isRefreshing then
    (s, InterceptResult.waitAndRetry)
  else
    let s1 := beginRenewal s
    if renewOk then (renewalSucceeded s1, InterceptResult.renewedAndRetried)
    else (renewalFailed s1, InterceptResult.renewalErrorRejected)

/-- One complete 401-handling episode on a fresh (non-retried,
non-refresh-URL) request whose renewal attempt fails, returning the
ApiService state it leaves behind. -/
def failedRenewalEpisode (s : RenewalState) : RenewalState :=
  (respondError s true 401 true false false false).1

/-- The mutable connection-owning state of the useSSE hook
(src/src/hooks/useSSE.ts lines 14-19): the EventSource ref, the
reconnect-timer ref (both modelled as optional handles), the
isConnecting ref and the two state cells isConnected and error. -/
structure SSEState where
  eventSource : Option Nat
  reconnectTimer : Option Nat
  isConnecting : Bool
  isConnected : Bool
  error : Option String
deriving DecidableEq, Repr

/-- Observable side effects of cleanup: clearTimeout on the pending
timer and close() on the EventSource. -/
inductive CleanupAction where
  | clearTimer : Nat → CleanupAction
  | closeSource : Nat → CleanupAction
deriving DecidableEq, Repr

/-- cleanup (src/src/hooks/useSSE.ts lines 22-40): clear the reconnect
timer if set, close and release the EventSource if present, reset the
connecting flag, the connected observation and the error. The second
component records the external actions performed. -/
def cleanup (s : SSEState) : SSEState × List CleanupAction :=
  let timerActs :=
    match s.reconnectTimer with
    | some t => [CleanupAction.clearTimer t]
    | none => []
  let sourceActs :=
    match s.eventSource with
    | some h => [CleanupAction.closeSource h]
    | none => []
  ({ eventSource := none
     reconnectTimer := none
     isConnecting := false
     isConnected := false
     error := none },
   timerActs ++ sourceActs)

/-- Overall reconciler state for the identity-transition claims: the
notification list, the unread counter, the loading flag and the stream
client's state. -/
structure ReconcilerState where
  notifications : List Notification
  unreadCount : Int
  loading : Bool
  sse : SSEState
deriving DecidableEq, Repr

/-- The identity-absent branch of the trigger effect
(src/unnamed/part_003 lines 224-230): setNotifications([]),
setUnreadCount(0), setLoading(false), disconnectSSE(). In
src/src/context/notification.context.tsx lines 147-152 the same
clearing runs and the stream client is stopped through the useSSE
enabled flag turning false, which invokes the same cleanup. -/
def clearOnLogout (s : ReconcilerState) : ReconcilerState :=
  { notifications := []
    unreadCount := 0
    loading := false
    sse := (cleanup s.sse).1 }

/-- The state application performed when a refresh completes
(src/unnamed/part_003 lines 152-163): the fetched, extracted list
replaces the set, the extracted count replaces the counter, and
loading is cleared. The arguments are the values extracted from the
two responses of this refresh. -/
def applyRefresh (fetched : List Notification) (cnt : Int)
    (s : ReconcilerState) : ReconcilerState :=
  { s with
    notifications := fetched
    unreadCount := cnt
    loading := false }

/-- State cells relevant to the single-flight refresh guard of
src/unnamed/part_003: the isFetchingRef flag, the loading flag, plus
two ghost counters: network list/count pairs currently outstanding
and pairs ever issued. -/
structure FetchState where
  isFetching : Bool
  loading : Bool
  outstanding : Nat
  pairsIssued : Nat
deriving DecidableEq, Repr

/-- The synchronous prefix of fetchNotificationsRef.current
(src/unnamed/part_003 lines 131-150): return unchanged when there is
no user or when isFetchingRef is already set; otherwise set the flag,
set loading and issue the getNotifications/getUnreadCount pair. -/
def fetchStart (hasUser : Bool) (s : FetchState) : FetchState :=
  if hasUser = false then s
  else if s.isFetching then s
  else
    { isFetching := true
      loading := true
      outstanding := s.outstanding + 1
      pairsIssued := s.pairsIssued + 1 }

/-- Completion of an outstanding fetch (src/unnamed/part_003
lines 161-164, the finally block): loading and the guard flag drop,
the outstanding pair resolves. -/
def fetchComplete (s : FetchState) : FetchState :=
  { s with
    isFetching := false
    loading := false
    outstanding := s.outstanding - 1 }

/-- State cells of the fetchNotifications variant in
src/src/context/notification.context.tsx, which has no in-flight
guard flag. -/
structure CtxFetchState where
  loading : Bool
  outstanding : Nat
  pairsIssued : Nat
deriving DecidableEq, Repr

/-- The synchronous prefix of fetchNotifications
(src/src/context/notification.context.tsx lines 31-45): return
unchanged when there is no user; otherwise set loading and issue the
getNotifications/getUnreadCount pair — there is no single-flight
check. -/
def fetchStartCtx (hasUser : Bool) (s : CtxFetchState) : CtxFetchState :=
  if hasUser = false then s
  else
    { loading := true
      outstanding := s.outstanding + 1
      pairsIssued := s.pairsIssued + 1 }

/-- A concrete unread notification used in witnesses and
counterexamples. -/
def sampleN1 : Notification :=
  { id := "n1"
    userId := "u1"
    title := "t"
    message := "m"
    isRead := false
    priority := Priority.NORMAL
    metadata := none
    sentViaSSE := true
    readAt := none
    createdAt := "2024-01-01"
    expiresAt := none }

/-- The same notification already marked read. -/
def sampleN1Read : Notification :=
  { sampleN1 with isRead := true }

/-- The spec's normalization scenario item: a payload record carrying
only a title. -/
def scenarioItem : JSVal := JSVal.obj [("title", JSVal.str "x")]

/-- The spec's normalization scenario payload:
data wrapping a notifications array holding the item above. -/
def scenarioPayload : JSVal :=
  JSVal.obj [("data", JSVal.obj [("notifications", JSVal.arr [scenarioItem])])]

/-- Claim C6: a pure network failure (error.response absent, which is
also how an axios timeout surfaces) is rejected to the caller
unchanged: the interceptor returns the original rejection, leaves the
renewal state untouched and never invokes the renewal operation. -/
theorem network_error_no_renewal (s : RenewalState) (status : Nat)
    (hasOriginal retryFlag isRefreshUrl renewOk : Bool) :
    respondError s false status hasOriginal retryFlag isRefreshUrl renewOk
      = (s, InterceptResult.rejectOriginal)
    ∧ invokesRenewal
        (respondError s false status hasOriginal retryFlag isRefreshUrl renewOk).2
      = false := by
  constructor
  · simp [respondError]
  · simp [respondError, invokesRenewal]

/-- Claim C8: cleanup of the Stream Client leaves the reconnect timer
cancelled, the EventSource released and the connected observation
false; a second cleanup is the identity and performs no further
external actions; and any timer or connection present before the call
is explicitly cleared and closed, including from the never-started
state. -/
theorem cleanup_idempotent (s : SSEState) :
    ((cleanup s).1.reconnectTimer = none
      ∧ (cleanup s).1.eventSource = none
      ∧ (cleanup s).1.isConnected = false)
    ∧ cleanup (cleanup s).1 = ((cleanup s).1, [])
    ∧ (∀ t, s.reconnectTimer = some t →
        CleanupAction.clearTimer t ∈ (cleanup s).2)
    ∧ (∀ h, s.eventSource = some h →
        CleanupAction.closeSource h ∈ (cleanup s).2) := by
  refine ⟨⟨rfl, rfl, rfl⟩, rfl, ?_, ?_⟩
  · intro t ht
    simp [cleanup, ht]
  · intro h hh
    cases hrt : s.reconnectTimer <;> simp [cleanup, hh, hrt]

/-- Claim C8 witness: cleanup applied to a concrete started state with
a pending timer and an open connection clears the timer, closes the
connection, and a second cleanup is the identity with no actions. -/
theorem cleanup_idempotent_witness :
    CleanupAction.clearTimer 5 ∈ (cleanup ⟨some 7, some 5, true, true, some "e"⟩).2
    ∧ CleanupAction.closeSource 7 ∈ (cleanup ⟨some 7, some 5, true, true, some "e"⟩).2
    ∧ cleanup (cleanup (⟨some 7, some 5, true, true, some "e"⟩ : SSEState)).1
        = ((cleanup (⟨some 7, some 5, true, true, some "e"⟩ : SSEState)).1, []) :=
  ⟨(cleanup_idempotent ⟨some 7, some 5, true, true, some "e"⟩).2.2.1 5 rfl,
   (cleanup_idempotent ⟨some 7, some 5, true, true, some "e"⟩).2.2.2 7 rfl,
   (cleanup_idempotent ⟨some 7, some 5, true, true, some "e"⟩).2.1⟩

/-- Claim C9: when the identity becomes absent the reconciler empties
the set, zeroes the counter and stops the stream client (connection
released, timer cancelled, connected false); consequently, after the
next identity's refresh is applied, the resulting state is a function
of that refresh's data alone — two runs differing only in the
pre-logout state agree exactly. -/
theorem identity_transition_no_leak (s1 s2 : ReconcilerState)
    (fetched : List Notification) (cnt : Int) :
    (clearOnLogout s1).notifications = []
    ∧ (clearOnLogout s1).unreadCount = 0
    ∧ (clearOnLogout s1).sse.eventSource = none
    ∧ (clearOnLogout s1).sse.reconnectTimer = none
    ∧ (clearOnLogout s1).sse.isConnected = false
    ∧ applyRefresh fetched cnt (clearOnLogout s1)
        = applyRefresh fetched cnt (clearOnLogout s2) :=
  ⟨rfl, rfl, rfl, rfl, rfl, rfl⟩

/-- Claim C10: markAsRead's list update preserves length and order;
at every position the output record agrees with the input record on
every field except isRead, which becomes true exactly when the id
matches (and keeps its old value otherwise); and when no record
matches the id the list is unchanged entirely. -/
theorem markAsRead_frame (nid : String) (l : List Notification) :
    (markAsReadList nid l).length = l.length
    ∧ (∀ i n m, l.get? i = some n → (markAsReadList nid l).get? i = some m →
        m.id = n.id ∧ m.userId = n.userId ∧ m.title = n.title
        ∧ m.message = n.message ∧ m.priority = n.priority
        ∧ m.metadata = n.metadata ∧ m.sentViaSSE = n.sentViaSSE
        ∧ m.readAt = n.readAt ∧ m.createdAt = n.createdAt
        ∧ m.expiresAt = n.expiresAt
        ∧ m.isRead = (if n.id = nid then true else n.isRead))
    ∧ ((∀ n ∈ l, n.id ≠ nid) → markAsReadList nid l = l) := by
  refine ⟨by simp [markAsReadList], ?_, ?_⟩
  · intro i n m hn hm
    rw [markAsReadList, List.get?_map, hn, Option.map_some'] at hm
    have hm2 : (if n.id = nid then { n with isRead := true } else n) = m :=
      Option.some.inj hm
    by_cases hid : n.id = nid
    · rw [if_pos hid] at hm2
      subst hm2
      simp [hid]
    · rw [if_neg hid] at hm2
      subst hm2
      simp [hid]
  · induction l with
    | nil => intro _; rfl
    | cons a t ih =>
      intro h
      have ha : a.id ≠ nid := h a (List.mem_cons_self a t)
      have ih2 := ih (fun n hn => h n (List.mem_cons_of_mem a hn))
      simp only [markAsReadList, List.map_cons] at ih2 ⊢
      rw [if_neg ha, ih2]

/-- Claim C10 witness: applying the frame theorem at a concrete list
and a non-matching id leaves the list untouched. -/
theorem markAsRead_frame_witness :
    markAsReadList "other" [sampleN1] = [sampleN1] :=
  (markAsRead_frame "other" [sampleN1]).2.2 (by decide)

/-- Claim C1 counterexample: in the code the attempt counter is reset
to 0 by the catch block of a FAILED renewal as well, so a single
failed renewal episode leaves the counter at 0, three consecutive
failed renewal episodes still leave it at 0, and the next (4th) 401
invokes the renewal operation again instead of propagating without a
renewal — contradicting both the reset-only-on-success clause and the
bound-exhaustion clause of the claim. -/
theorem renewal_reset_on_failure_cex :
    (failedRenewalEpisode ⟨false, 0⟩).refreshAttempts = 0
    ∧ (failedRenewalEpisode (failedRenewalEpisode
        (failedRenewalEpisode ⟨false, 0⟩))).refreshAttempts = 0
    ∧ invokesRenewal
        (respondError
          (failedRenewalEpisode (failedRenewalEpisode
            (failedRenewalEpisode ⟨false, 0⟩)))
          true 401 true false false false).2 = true := by
  decide

/-- Claim C1 (amended): the interceptor does check the bound — a 401
on a fresh non-refresh request arriving while refreshAttempts is
already at least MAX_REFRESH_ATTEMPTS is rejected without invoking
renewal (and the counter is reset) — and the counter is incremented
once per renewal attempt; but it is reset to 0 on failed renewal and
on the bound check as well, not only on successful renewal or fresh
login, so consecutive failed renewals never accumulate it. -/
theorem renewal_bound_amended (s : RenewalState) (renewOk : Bool) :
    (MAX_REFRESH_ATTEMPTS ≤ s.refreshAttempts →
      respondError s true 401 true false false renewOk
        = (⟨false, 0⟩, InterceptResult.rejectOriginal))
    ∧ (beginRenewal s).refreshAttempts = s.refreshAttempts + 1
    ∧ (renewalSucceeded (beginRenewal s)).refreshAttempts = 0
    ∧ (renewalFailed (beginRenewal s)).refreshAttempts = 0
    ∧ (loginReset s).refreshAttempts = 0 := by
  refine ⟨?_, rfl, rfl, rfl, rfl⟩
  intro h
  simp [respondError, h]

/-- Claim C1 witness: the amended bound clause applied at the concrete
state with the counter at the bound. -/
theorem renewal_bound_amended_witness :
    MAX_REFRESH_ATTEMPTS ≤ (3 : Nat)
    ∧ respondError ⟨false, 3⟩ true 401 true false false false
        = (⟨false, 0⟩, InterceptResult.rejectOriginal) :=
  ⟨by decide, (renewal_bound_amended ⟨false, 3⟩ false).1 (by decide)⟩

/-- Claim C2 counterexample: delivering a record whose id is already
present in a set with unique ids does not replace it — the handler
prepends unconditionally, and the resulting set holds two records
with id n1. -/
theorem stream_push_duplicate_cex :
    idCount (onNotification sampleN1 ⟨[sampleN1], 1⟩).notifications "n1" = 2 := by
  decide

/-- Claim C2 (amended): the stream-push handler unconditionally
prepends the incoming record and increments the counter; for every id
the number of records carrying it grows by one exactly when the
incoming record carries it, so a delivery whose id is already present
yields duplicate ids rather than a replacement. -/
theorem stream_push_prepend_amended (n : Notification) (s : NotifState)
    (i : String) :
    (onNotification n s).notifications = n :: s.notifications
    ∧ (onNotification n s).unreadCount = s.unreadCount + 1
    ∧ idCount (onNotification n s).notifications i
        = idCount s.notifications i + (if n.id = i then 1 else 0) := by
  refine ⟨rfl, rfl, ?_⟩
  by_cases h : n.id = i <;>
    simp [onNotification, idCount, List.filter_cons, h]

/-- Claim C3 counterexample: the handler increments the counter even
for an already-read record (claim predicts no increment), and a
second delivery of an id that is already present still increments
(claim predicts the counter stays at 1 in the push-then-duplicate
scenario, but locally the handler alone already yields 2). -/
theorem stream_push_count_cex :
    sampleN1Read.isRead = true
    ∧ (onNotification sampleN1Read ⟨[], 0⟩).unreadCount = 1
    ∧ hasId (onNotification sampleN1 ⟨[], 0⟩).notifications sampleN1.id = true
    ∧ (onNotification sampleN1 (onNotification sampleN1 ⟨[], 0⟩)).unreadCount = 2 := by
  decide

/-- Claim C3 (amended): the stream-push handler increments the unread
counter by exactly one on every delivery, regardless of the record's
isRead flag or prior presence in the set; a subsequently completing
refresh then overwrites the counter with the server-extracted count
(so the post-refresh value is whatever the count endpoint reports,
not a locally deduplicated value). -/
theorem stream_push_count_amended (n : Notification) (s : NotifState)
    (fetched : List Notification) (cnt : Int) (r : ReconcilerState) :
    (onNotification n s).unreadCount = s.unreadCount + 1
    ∧ (applyRefresh fetched cnt r).unreadCount = cnt :=
  ⟨rfl, rfl⟩

/-- Claim C4 counterexample: the fetchNotifications variant of
src/src/context/notification.context.tsx has no in-flight guard — a
second call arriving while the first pair is still outstanding issues
a second network pair, so two pairs are outstanding at once. -/
theorem fetch_ctx_not_single_flight_cex :
    (fetchStartCtx true (fetchStartCtx true ⟨false, 0, 0⟩)).outstanding = 2
    ∧ (fetchStartCtx true (fetchStartCtx true ⟨false, 0, 0⟩)).pairsIssued = 2
    ∧ ¬((fetchStartCtx true (fetchStartCtx true ⟨false, 0, 0⟩)).outstanding ≤ 1) := by
  decide

/-- Claim C4 (amended): the ref-guarded variant of the fetch
(fetchNotificationsRef in src/unnamed/part_003) is single-flight — a
call arriving while isFetching is set returns with no state change and
no new network pair — and a call from the idle state issues exactly one
pair and takes the flight; the variant in
src/src/context/notification.context.tsx lacks the guard. -/
theorem fetch_single_flight_amended (s : FetchState) (hasUser : Bool) :
    (s.isFetching = true → fetchStart hasUser s = s)
    ∧ (s.isFetching = false → hasUser = true →
        fetchStart hasUser s
          = ⟨true, true, s.outstanding + 1, s.pairsIssued + 1⟩) := by
  constructor
  · intro h
    by_cases hu : hasUser = false <;> simp [fetchStart, h, hu]
  · intro h hu
    simp [fetchStart, h, hu]

/-- Claim C4 witness: the amended single-flight clause applied at a
concrete in-flight state — the second call changes nothing. -/
theorem fetch_single_flight_amended_witness :
    fetchStart true ⟨true, true, 1, 5⟩ = ⟨true, true, 1, 5⟩ :=
  (fetch_single_flight_amended ⟨true, true, 1, 5⟩ true).1 rfl

/-- Claim C5 counterexample: markAsRead on an already-read record is
not a no-op on the counter — from counter 1 it still decrements to 0. -/
theorem markAsRead_already_read_cex :
    sampleN1Read.isRead = true
    ∧ (markAsRead "n1" ⟨[sampleN1Read], 1⟩).unreadCount = 0 := by
  decide

/-- Claim C5 (amended): markAsRead sets the counter to
max(0, previous - 1) unconditionally — even when the target record is
already read or absent — so the counter never becomes negative, and
stays non-negative after any number of redundant mark-read calls; it
is a no-op on the counter only once the counter is 0. -/
theorem markAsRead_counter_amended (nid : String) (s : NotifState) (k : Nat) :
    (markAsRead nid s).unreadCount = max 0 (s.unreadCount - 1)
    ∧ 0 ≤ (markAsRead nid s).unreadCount
    ∧ 0 ≤ ((fun t => markAsRead nid t)^[k + 1] s).unreadCount := by
  refine ⟨rfl, le_max_left 0 _, ?_⟩
  rw [Function.iterate_succ_apply']
  exact le_max_left 0 _

/-- Claim C7: extractNotifications maps each of the four tolerated
payload shapes (bare array, notifications field, data-wrapped
notifications field, data-wrapped array) to the normalization of the
contained items; and normalizeItem defaults a nullish priority to
NORMAL, a missing isRead and sentViaSSE to false, and synthesizes a
non-empty id when none of id, _id, notificationId is present. -/
theorem normalization_defaults (env : String) (items : List JSVal)
    (resp : JSVal) (item : JSVal) :
    (extractNotifications env (JSVal.arr items) = items.map (normalizeItem env))
    ∧ (getField resp "notifications" = JSVal.arr items →
        extractNotifications env resp = items.map (normalizeItem env))
    ∧ (asArray (getField resp "notifications") = none →
        getField (getField resp "data") "notifications" = JSVal.arr items →
        extractNotifications env resp = items.map (normalizeItem env))
    ∧ (asArray (getField resp "notifications") = none →
        getField resp "data" = JSVal.arr items →
        extractNotifications env resp = items.map (normalizeItem env))
    ∧ (isNullish (getField item "priority") = true →
        (normalizeItem env item).priority = JSVal.str "NORMAL")
    ∧ (getField item "isRead" = JSVal.undef →
        (normalizeItem env item).isRead = false)
    ∧ (getField item "sentViaSSE" = JSVal.undef →
        (normalizeItem env item).sentViaSSE = false)
    ∧ (isNullish (getField item "id") = true →
        isNullish (getField item "_id") = true →
        isNullish (getField item "notificationId") = true →
        (normalizeItem env item).id ≠ "") := by
  refine ⟨?_, ?_, ?_, ?_, ?_, ?_, ?_, ?_⟩
  · simp [extractNotifications, truthy, asArray, normalizeNotifications]
  · intro h
    cases resp <;>
      simp_all [extractNotifications, getField, asArray, truthy,
        normalizeNotifications]
  · intro h1 h2
    cases hd : getField resp "data" <;> rw [hd] at h2 <;>
      simp [getField] at h2 <;>
      cases resp <;>
        simp_all [extractNotifications, getField, asArray, truthy,
          normalizeNotifications]
  · intro h1 h2
    cases resp <;>
      simp_all [extractNotifications, getField, asArray, truthy,
        normalizeNotifications]
  · intro h
    simp [normalizeItem, nc, h]
  · intro h
    simp [normalizeItem, h, truthy]
  · intro h
    simp [normalizeItem, h, truthy]
  · intro h1 h2 h3
    simp only [normalizeItem, nc, h1, h2, h3, if_true, jsString]
    intro h
    have hl := congrArg String.length h
    rw [String.length_append, String.length_append] at hl
    have hm : ("-" : String).length = 1 := rfl
    have hz : ("" : String).length = 0 := rfl
    rw [hm, hz] at hl
    omega

/-- Claim C7 witness: the spec's scenario — the payload wrapping a
single record that has only a title normalizes, through the
data-wrapped shape, to one record whose priority defaults to NORMAL,
whose isRead defaults to false, and whose synthesized id is
non-empty. -/
theorem normalization_defaults_witness :
    extractNotifications "1700" scenarioPayload
      = [normalizeItem "1700" scenarioItem]
    ∧ (normalizeItem "1700" scenarioItem).priority = JSVal.str "NORMAL"
    ∧ (normalizeItem "1700" scenarioItem).isRead = false
    ∧ (normalizeItem "1700" scenarioItem).id ≠ "" :=
  ⟨(normalization_defaults "1700" [scenarioItem] scenarioPayload scenarioItem).2.2.1
      rfl rfl,
   (normalization_defaults "1700" [scenarioItem] scenarioPayload scenarioItem).2.2.2.2.1
      rfl,
   (normalization_defaults "1700" [scenarioItem] scenarioPayload scenarioItem).2.2.2.2.2.1
      rfl,
   (normalization_defaults "1700" [scenarioItem] scenarioPayload scenarioItem).2.2.2.2.2.2.2
      rfl rfl rfl⟩
